import Mathlib

/-!
Verification of the Risk Scoring and Shock Simulation Engine of the
food-import-risk-dashboard repository.

The engine lives in `src/simulate.py` (the shock simulator) and
`src/api.py` (serving, ranking, filtering).  Pandas dataframes are
embedded as Lean lists of typed rows; a nullable numeric column (a float
column that may hold NaN) is embedded as `Option ℚ`, with `none`
standing for NaN/missing.  Python floats are modelled as rationals.
-/

/-- Python `round` on a number (one-argument form): round half to even. -/
def pythonRound (x : ℚ) : ℤ :=
  let f := ⌊x⌋
  let r := x - (f : ℚ)
  if r < 1/2 then f
  else if 1/2 < r then f + 1
  else if f % 2 = 0 then f else f + 1

/-- Python `round(x, 6)` as used by `_round_floats` in `src/api.py`. -/
def pythonRound6 (x : ℚ) : ℚ := (pythonRound (x * 1000000) : ℚ) / 1000000

/-- Substring test on character lists: does `p` occur contiguously in the
second list?  Embeds the Python substring tests (`in`, `str.contains`). -/
def containsSub (p : List Char) : List Char → Bool
  | [] => p.isEmpty
  | c :: cs => p.isPrefixOf (c :: cs) || containsSub p cs

/-- Does string `pat` occur as a substring of `hay`? -/
def strContains (hay pat : String) : Bool :=
  containsSub pat.toList hay.toList

/-- Case-insensitive substring test, as performed by
`Series.str.contains(pat, case=False)` on a plain-text pattern. -/
def strContainsCI (hay pat : String) : Bool :=
  containsSub pat.toLower.toList hay.toLower.toList

/-- Numeric cleaning from `src/simulate.py` lines 29-30:
`pd.to_numeric(col, errors="coerce").fillna(0).clip(lower=0)`.
A raw cell is `Option ℚ` (`none` = NaN / non-numeric); cleaning
replaces NaN by 0 and clips negatives to 0. -/
def cleanNum (x : Option ℚ) : ℚ := max 0 (x.getD 0)

/-- One row of the base table `base_country_commodity_year.parquet`.
`idr` embeds the source column `import_dependency_ratio`. -/
structure BaseRow where
  country : String
  commodity : String
  year : ℤ
  production_qty : Option ℚ
  import_qty : Option ℚ
  export_qty : Option ℚ
  apparent_consumption : Option ℚ
  idr : Option ℚ
deriving Repr, DecidableEq

/-- One output row of `simulate_import_shock` (`src/simulate.py`).  The
input columns are kept (with `apparent_consumption` and `import_qty`
overwritten by their cleaned values, as the source does), and the
simulation columns are added.  The column
`flag_zero_consumption_after_shock` is assigned by both callers
immediately after the call (`src/api.py` lines 216 and 289) as
`consumption_shocked == 0`; it is materialised here with that value. -/
structure SimRow where
  country : String
  commodity : String
  year : ℤ
  production_qty : Option ℚ
  export_qty : Option ℚ
  idr : Option ℚ
  apparent_consumption : ℚ
  import_qty : ℚ
  flag_imports_exceed_consumption : Bool
  imports_used : ℚ
  imports_shocked : ℚ
  consumption_shocked : ℚ
  shortfall_abs : ℚ
  shortfall_pct : Option ℚ
  idr_shocked_raw : Option ℚ
  flag_idr_over_1 : Bool
  idr_shocked : Option ℚ
  flag_zero_consumption_after_shock : Bool
deriving Repr, DecidableEq

/-- The per-row body of `simulate_import_shock` (`src/simulate.py`
lines 29-60), after numeric cleaning. -/
def shockRecord (shock_pct : ℚ) (b : BaseRow) : SimRow :=
  let C := cleanNum b.apparent_consumption
  let imp := cleanNum b.import_qty
  let imports_used := min imp C
  let imports_shocked := imports_used * (1 - shock_pct)
  let consumption_shocked := max 0 (C - shock_pct * imports_used)
  let shortfall_abs := max 0 (C - consumption_shocked)
  let idr_shocked_raw : Option ℚ :=
    if 0 < consumption_shocked then some (imports_shocked / consumption_shocked) else none
  { country := b.country
    commodity := b.commodity
    year := b.year
    production_qty := b.production_qty
    export_qty := b.export_qty
    idr := b.idr
    apparent_consumption := C
    import_qty := imp
    flag_imports_exceed_consumption := decide (C < imp)
    imports_used := imports_used
    imports_shocked := imports_shocked
    consumption_shocked := consumption_shocked
    shortfall_abs := shortfall_abs
    shortfall_pct := if 0 < C then some (shortfall_abs / C) else none
    idr_shocked_raw := idr_shocked_raw
    flag_idr_over_1 := idr_shocked_raw.elim false (fun v => decide (1 < v))
    idr_shocked := idr_shocked_raw.map (fun v => max 0 (min v 1))
    flag_zero_consumption_after_shock := decide (consumption_shocked = 0) }

/-- `simulate_import_shock(latest_base, shock_pct)` from `src/simulate.py`.
The shock-range check (lines 19-20) raises `ValueError`, embedded as the
error branch.  The required-column check (lines 22-26) cannot fire in
this typed embedding, where both columns are always present. -/
def simulate_import_shock (latest_base : List BaseRow) (shock_pct : ℚ) :
    Except String (List SimRow) :=
  if 0 ≤ shock_pct ∧ shock_pct ≤ 1 then
    .ok (latest_base.map (shockRecord shock_pct))
  else
    .error "shock_pct must be between 0 and 1"

/-- One row of the precomputed risk table `risk_index_latest.parquet`. -/
structure RiskRow where
  country : String
  commodity : String
  risk_score : Option ℚ
  risk_band : Option String
  mean_idr : Option ℚ
  prod_vol_norm : Option ℚ
  import_vol_norm : Option ℚ
deriving Repr, DecidableEq

/-- A merged output row, covering the union of the column sets selected
by the serving routes of `src/api.py` (`cols` lists).  A field that a
particular route does not produce is `none` there.  `idr` embeds the
source column `import_dependency_ratio`.  Cached shock-snapshot files
are materialised tables of this same shape, so snapshot rows reuse it. -/
structure OutRow where
  country : String
  commodity : String
  risk_score : Option ℚ
  risk_band : Option String
  mean_idr : Option ℚ
  prod_vol_norm : Option ℚ
  import_vol_norm : Option ℚ
  year : Option ℤ
  production_qty : Option ℚ
  import_qty : Option ℚ
  export_qty : Option ℚ
  apparent_consumption : Option ℚ
  idr : Option ℚ
  shortfall_pct : Option ℚ
  shortfall_abs : Option ℚ
  consumption_shocked : Option ℚ
  idr_shocked : Option ℚ
  flag_zero_consumption_after_shock : Option Bool
deriving Repr, DecidableEq

/-- A typed API failure: `HTTPException(status_code, detail)` from
`src/api.py` (or an uncaught exception, embedded as status 500). -/
structure ApiError where
  status : ℕ
  detail : String
deriving Repr, DecidableEq

/-- The substring blocklist `_DROP_COUNTRY_SUBSTRINGS` (`src/api.py`
lines 99-103), verbatim. -/
def _DROP_COUNTRY_SUBSTRINGS : List String :=
  [", mainland", "Taiwan Province of", "(Kingdom of the)"]

/-- The mask built by `_filter_special_areas` for one country cell.
`Series.str.contains(s, case=False)` treats each pattern as a regex;
in the third pattern of `_DROP_COUNTRY_SUBSTRINGS` the parentheses form
a regex group, so the text actually matched is `Kingdom of the`.  The
first two patterns contain no regex metacharacters and match literally. -/
def _special_area_mask (c : String) : Bool :=
  strContainsCI c ", mainland" ||
  strContainsCI c "Taiwan Province of" ||
  strContainsCI c "Kingdom of the"

/-- `_filter_special_areas` (`src/api.py` lines 105-112), generic over
the row type; `countryOf` selects the `country` column (always present
in this typed embedding, so the missing-column early return is vacuous). -/
def _filter_special_areas (countryOf : α → String) (df : List α) : List α :=
  df.filter (fun r => !(_special_area_mask (countryOf r)))

/-- `_country_match` (`src/api.py` lines 54-64): case-insensitive exact
match on the stripped query first, else case-insensitive containment.
The containment branch uses `str.contains` with a plain-text query, i.e.
substring containment for queries without regex metacharacters. -/
def _country_match (countryOf : α → String) (df : List α) (country : String) : List α :=
  let q := country.trim.toLower
  let exact := df.filter (fun r => (countryOf r).toLower == q)
  if exact.isEmpty then
    df.filter (fun r => strContains (countryOf r).toLower q)
  else
    exact

/-- `_add_shortfall_abs` (`src/api.py` lines 67-76): overwrite
`shortfall_abs` with `clip(lower=0)` of cleaned `apparent_consumption`
minus cleaned `consumption_shocked` (both columns exist on every row
type this is applied to, so the column-presence guard always passes). -/
def _add_shortfall_abs (r : OutRow) : OutRow :=
  { r with shortfall_abs := some (max 0 (r.apparent_consumption.getD 0 - r.consumption_shocked.getD 0)) }

/-- `_round_floats` (`src/api.py` lines 41-51) on one record: every
non-NaN float field is rounded to 6 decimals; NaN (`none`), integers,
booleans and strings pass through unchanged. -/
def _round_floats (r : OutRow) : OutRow :=
  { r with
    risk_score := r.risk_score.map pythonRound6
    mean_idr := r.mean_idr.map pythonRound6
    prod_vol_norm := r.prod_vol_norm.map pythonRound6
    import_vol_norm := r.import_vol_norm.map pythonRound6
    production_qty := r.production_qty.map pythonRound6
    import_qty := r.import_qty.map pythonRound6
    export_qty := r.export_qty.map pythonRound6
    apparent_consumption := r.apparent_consumption.map pythonRound6
    idr := r.idr.map pythonRound6
    shortfall_pct := r.shortfall_pct.map pythonRound6
    shortfall_abs := r.shortfall_abs.map pythonRound6
    consumption_shocked := r.consumption_shocked.map pythonRound6
    idr_shocked := r.idr_shocked.map pythonRound6 }

/-- Detail string of the 404 raised by `_shock_to_cached_file`
(`src/api.py` lines 86-94).  Python interpolates `str(shock_pct)` of the
float; here the rational is rendered by `toString`.  The rest of the
text is verbatim. -/
def cachedNotFoundDetail (shock_pct : ℚ) : String :=
  "No cached file for shock_pct=" ++ toString shock_pct ++
  ". Available cached shocks: /meta/shocks_cached . Use /risk/top (live) for non-cached shocks."

/-- `_shock_to_cached_file` (`src/api.py` lines 78-95).  The snapshot
store is embedded as the list `available` of integer percents `k` for
which a file `shock_simulation_latest_importdrop{k}.parquet` exists; the
function returns the resolved identifier `k = int(round(shock_pct*100))`
or the 404 outcome. -/
def _shock_to_cached_file (available : List ℤ) (shock_pct : ℚ) : Except ApiError ℤ :=
  let k := pythonRound (shock_pct * 100)
  if available.contains k then .ok k
  else .error ⟨404, cachedNotFoundDetail shock_pct⟩

/-- Sort comparison on one rational sort key. -/
def cmpQ (a b : ℚ) : Ordering :=
  if a < b then .lt else if b < a then .gt else .eq

/-- Key comparison for one column of a pandas multi-key
`sort_values(..., ascending=False)`: descending on values, NaN (`none`)
sorted last (`na_position="last"`, the default). -/
def descNaLast : Option ℚ → Option ℚ → Ordering
  | some a, some b => cmpQ b a
  | some _, none => .lt
  | none, some _ => .gt
  | none, none => .eq

/-- The three-key ranking comparison of `top_risk` and `top_risk_cached`
(`src/api.py` lines 308-311 and 367-370):
`sort_values(["shortfall_abs", "risk_score", "apparent_consumption"],
ascending=[False, False, False])`. -/
def rankOrd (a b : OutRow) : Ordering :=
  (descNaLast a.shortfall_abs b.shortfall_abs).then
    ((descNaLast a.risk_score b.risk_score).then
      (descNaLast a.apparent_consumption b.apparent_consumption))

/-- Boolean `may stay before` relation induced by `rankOrd`. -/
def rankLE (a b : OutRow) : Bool := !(rankOrd a b == .gt)

/-- The multi-key ranking sort.  A pandas multi-column `sort_values`
uses `np.lexsort`, which is stable, so it is embedded as a stable merge
sort under `rankLE`. -/
def rankSort (l : List OutRow) : List OutRow := l.mergeSort rankLE

/-- The triple of sort keys used by the ranking sort. -/
def rankKey (r : OutRow) : Option ℚ × Option ℚ × Option ℚ :=
  (r.shortfall_abs, r.risk_score, r.apparent_consumption)

/-- Two-key sort of `simulate_risk` (`src/api.py` line 234):
`sort_values(["shortfall_abs", "risk_score"], ascending=[False, False])`
(multi-key, hence stable). -/
def simRankLE (a b : OutRow) : Bool :=
  !((descNaLast a.shortfall_abs b.shortfall_abs).then
      (descNaLast a.risk_score b.risk_score) == .gt)

/-- Single-key sort of `risk_by_country` (`src/api.py` line 187):
`sort_values("risk_score", ascending=False)`.  (pandas uses an unstable
quicksort for a single-column sort; the embedding fixes one stable
order, which is one of the orders the source may produce.  No claim
depends on the order of `risk_score` ties here.) -/
def riskScoreLE (a b : OutRow) : Bool := !(descNaLast a.risk_score b.risk_score == .gt)

/-- `base.sort_values("year")` as used before the latest-year selection
(`src/api.py` lines 151-157, 208-213, 270-275); embedded as a stable
sort by year ascending (the source single-column quicksort is unstable;
no claim depends on the order of equal-year rows). -/
def sortByYear (base : List BaseRow) : List BaseRow :=
  base.mergeSort (fun a b => decide (a.year ≤ b.year))

/-- `groupby(["country", "commodity"], as_index=False).tail(1)`: keep
each row that is the last occurrence of its (country, commodity) key,
in frame order. -/
def groupTail1 : List BaseRow → List BaseRow
  | [] => []
  | r :: rs =>
      if rs.any (fun x => x.country == r.country && x.commodity == r.commodity) then
        groupTail1 rs
      else
        r :: groupTail1 rs

/-- The optional commodity filter of the top-N routes (`src/api.py`
lines 277-279 and 354-355): applied only when the query parameter is
present and truthy (Python `if commodity:` — the empty string is
falsy), comparing lower-cased commodity names for equality. -/
def commodityFilter (commodity : Option String) (commodityOf : α → String)
    (df : List α) : List α :=
  match commodity with
  | none => df
  | some c => if c == "" then df else df.filter (fun x => (commodityOf x).toLower == c.toLower)

/-- First-occurrence deduplication, the embedding of
`Series.unique()` (which preserves first-occurrence order). -/
def dedupFirst (l : List String) : List String :=
  l.foldl (fun acc x => if acc.contains x then acc else acc ++ [x]) []

/-- Ascending sort of strings, embedding Python `sorted` on strings. -/
def sortedStr (l : List String) : List String :=
  l.mergeSort (fun a b => decide (a ≤ b))

/-- Response of `GET /risk/top` and `GET /risk/top_cached` (the
`handler` tag field is omitted). -/
structure TopResponse where
  shock_pct : ℚ
  commodity : Option String
  n_records : ℕ
  records : List OutRow
  note : String
deriving Repr, DecidableEq

/-- Response of `GET /risk/country/{country}`. -/
structure CountryResponse where
  country : String
  n_records : ℕ
  records : List OutRow
  note : String
deriving Repr, DecidableEq

/-- Response of `POST /risk/simulate`. -/
structure SimulateResponse where
  country : String
  shock_pct : ℚ
  n_records : ℕ
  records : List OutRow
  note : String
deriving Repr, DecidableEq

/-- Response of `GET /meta/commodities`. -/
structure CommoditiesResponse where
  n : ℕ
  commodities : List String
deriving Repr, DecidableEq

/-- Response of `GET /meta/countries`. -/
structure CountriesResponse where
  n : ℕ
  countries : List String
deriving Repr, DecidableEq

/-- Response of `GET /meta/shocks_cached`. -/
structure ShocksResponse where
  n : ℕ
  shocks : List ℚ
  files : List String
deriving Repr, DecidableEq

/-- Row built by the two merges of `top_risk` (`src/api.py` lines
302-305) from a risk row, an (inner-join) matching base row, and the
optional (left-join) simulated row restricted to `sim_keep`. -/
def topMergeRow (r : RiskRow) (b : BaseRow) (s : Option SimRow) : OutRow :=
  { country := r.country
    commodity := r.commodity
    risk_score := r.risk_score
    risk_band := r.risk_band
    mean_idr := r.mean_idr
    prod_vol_norm := r.prod_vol_norm
    import_vol_norm := r.import_vol_norm
    year := some b.year
    production_qty := b.production_qty
    import_qty := b.import_qty
    export_qty := b.export_qty
    apparent_consumption := b.apparent_consumption
    idr := b.idr
    shortfall_pct := s.bind SimRow.shortfall_pct
    shortfall_abs := s.map SimRow.shortfall_abs
    consumption_shocked := s.map SimRow.consumption_shocked
    idr_shocked := s.bind SimRow.idr_shocked
    flag_zero_consumption_after_shock := s.map SimRow.flag_zero_consumption_after_shock }

/-- `risk.merge(latest_base, on=["country", "commodity"], how="inner")`:
for each risk row in order, every base row with the same key, in base
order; risk rows without a base match are dropped (and vice versa). -/
def riskBaseInner (risk : List RiskRow) (base : List BaseRow) : List (RiskRow × BaseRow) :=
  risk.flatMap (fun r =>
    (base.filter (fun b => b.country == r.country && b.commodity == r.commodity)).map
      (fun b => (r, b)))

/-- `.merge(sim_live[sim_keep], on=["country", "commodity"], how="left")`
on the result of `riskBaseInner`: every left row is kept; rows without a
simulated match keep the simulation fields as NaN. -/
def attachSim (sim : List SimRow) (rb : List (RiskRow × BaseRow)) : List OutRow :=
  rb.flatMap (fun p =>
    match sim.filter (fun s => s.country == p.1.country && s.commodity == p.1.commodity) with
    | [] => [topMergeRow p.1 p.2 none]
    | ms => ms.map (fun s => topMergeRow p.1 p.2 (some s)))

/-- The latest-base pool of `top_risk` (`src/api.py` lines 270-282):
latest year per (country, commodity), then the optional commodity
filter, then special-area exclusion. -/
def topRiskBasePool (base : List BaseRow) (commodity : Option String) : List BaseRow :=
  _filter_special_areas BaseRow.country
    (commodityFilter commodity BaseRow.commodity (groupTail1 (sortByYear base)))

/-- The risk pool of `top_risk` (`src/api.py` lines 277-283): optional
commodity filter, then special-area exclusion. -/
def topRiskRiskPool (risk : List RiskRow) (commodity : Option String) : List RiskRow :=
  _filter_special_areas RiskRow.country (commodityFilter commodity RiskRow.commodity risk)

/-- The merged (pre-sort) table of `top_risk` (`src/api.py` lines
288-305), with the simulation run at `shock_pct`. -/
def topRiskMerged (risk : List RiskRow) (base : List BaseRow) (shock_pct : ℚ)
    (commodity : Option String) : List OutRow :=
  attachSim ((topRiskBasePool base commodity).map (shockRecord shock_pct))
    (riskBaseInner (topRiskRiskPool risk commodity) (topRiskBasePool base commodity))

/-- `GET /risk/top` (`src/api.py` lines 260-335).  The `Query`
constraints `n ∈ [1, 200]` and `shock_pct ∈ [0, 1]` are validated by
FastAPI before the handler runs (422 on violation); an uncaught
exception from the simulator is a 500. -/
def top_risk (risk : List RiskRow) (base : List BaseRow) (n : ℕ) (shock_pct : ℚ)
    (commodity : Option String) : Except ApiError TopResponse :=
  if ¬(1 ≤ n ∧ n ≤ 200) then .error ⟨422, "n must be between 1 and 200"⟩
  else if ¬(0 ≤ shock_pct ∧ shock_pct ≤ 1) then
    .error ⟨422, "shock_pct must be between 0 and 1"⟩
  else if (topRiskBasePool base commodity).isEmpty ||
      (topRiskRiskPool risk commodity).isEmpty then
    .error ⟨404, "No rows match your filters after cleaning."⟩
  else
    match simulate_import_shock (topRiskBasePool base commodity) shock_pct with
    | .error e => .error ⟨500, e⟩
    | .ok sim_live =>
      let merged := attachSim sim_live (riskBaseInner (topRiskRiskPool risk commodity)
        (topRiskBasePool base commodity))
      let records := ((rankSort merged).take n).map _round_floats
      .ok { shock_pct := pythonRound6 shock_pct
            commodity := commodity
            n_records := records.length
            records := records
            note := "Ranked by shortfall_abs DESC, then risk_score DESC, then apparent_consumption DESC (simulation computed live)." }

/-- `GET /risk/top_cached` (`src/api.py` lines 338-394).  The snapshot
store is embedded as an association list from integer percent to the
rows of the corresponding parquet file. -/
def top_risk_cached (store : List (ℤ × List OutRow)) (n : ℕ) (shock_pct : ℚ)
    (commodity : Option String) : Except ApiError TopResponse :=
  if ¬(1 ≤ n ∧ n ≤ 200) then .error ⟨422, "n must be between 1 and 200"⟩
  else if ¬(0 ≤ shock_pct ∧ shock_pct ≤ 1) then
    .error ⟨422, "shock_pct must be between 0 and 1"⟩
  else
    match _shock_to_cached_file (store.map Prod.fst) shock_pct with
    | .error e => .error e
    | .ok k =>
      let df := ((store.lookup k).getD [])
      let df1 := commodityFilter commodity OutRow.commodity df
      if df1.isEmpty then .error ⟨404, "No rows match your filters."⟩
      else
        let df2 := (_filter_special_areas OutRow.country df1).map _add_shortfall_abs
        let records := ((rankSort df2).take n).map _round_floats
        .ok { shock_pct := pythonRound6 shock_pct
              commodity := commodity
              n_records := records.length
              records := records
              note := "Loaded from cached file: shock_simulation_latest_importdrop" ++ toString k ++ ".parquet (precomputed)." }

/-- Row built by the left join of `simulate_risk` (`src/api.py` lines
228-234): a simulated row, extended with the risk columns of an
optional matching risk row. -/
def simMergeRow (s : SimRow) (r : Option RiskRow) : OutRow :=
  { country := s.country
    commodity := s.commodity
    risk_score := r.bind RiskRow.risk_score
    risk_band := r.bind RiskRow.risk_band
    mean_idr := r.bind RiskRow.mean_idr
    prod_vol_norm := r.bind RiskRow.prod_vol_norm
    import_vol_norm := r.bind RiskRow.import_vol_norm
    year := some s.year
    production_qty := s.production_qty
    import_qty := some s.import_qty
    export_qty := s.export_qty
    apparent_consumption := some s.apparent_consumption
    idr := s.idr
    shortfall_pct := s.shortfall_pct
    shortfall_abs := some s.shortfall_abs
    consumption_shocked := some s.consumption_shocked
    idr_shocked := s.idr_shocked
    flag_zero_consumption_after_shock := some s.flag_zero_consumption_after_shock }

/-- `sim.merge(risk_c[...], on=["country", "commodity"], how="left")`:
every simulated row is kept; rows without a risk match keep the risk
columns as NaN. -/
def simLeftJoin (sim : List SimRow) (risk_c : List RiskRow) : List OutRow :=
  sim.flatMap (fun s =>
    match risk_c.filter (fun r => r.country == s.country && r.commodity == s.commodity) with
    | [] => [simMergeRow s none]
    | ms => ms.map (fun r => simMergeRow s (some r)))

/-- The country-scoped base pool shared by `simulate_risk` and
`risk_by_country`: country match, special-area exclusion, then the
latest row per (country, commodity). -/
def latestBasePoolFor (base : List BaseRow) (country : String) : List BaseRow :=
  groupTail1 (sortByYear (_filter_special_areas BaseRow.country
    (_country_match BaseRow.country base country)))

/-- The country-scoped risk pool shared by `simulate_risk` and
`risk_by_country`. -/
def riskPoolFor (risk : List RiskRow) (country : String) : List RiskRow :=
  _filter_special_areas RiskRow.country (_country_match RiskRow.country risk country)

/-- `POST /risk/simulate` (`src/api.py` lines 199-257).  The pydantic
constraint `shock_pct ∈ [0, 1]` is validated before the handler runs.
When the country-scoped risk pool is empty the source substitutes an
empty risk frame, which the left join treats identically to the empty
list, so no separate branch is needed. -/
def simulate_risk (risk : List RiskRow) (base : List BaseRow) (country : String)
    (shock_pct : ℚ) : Except ApiError SimulateResponse :=
  if ¬(0 ≤ shock_pct ∧ shock_pct ≤ 1) then
    .error ⟨422, "shock_pct must be between 0 and 1"⟩
  else
    let c := country.trim
    let base_c := _filter_special_areas BaseRow.country (_country_match BaseRow.country base c)
    if base_c.isEmpty then
      .error ⟨404, "No base data for country=" ++ c ++ " (after cleaning)"⟩
    else
      match simulate_import_shock (groupTail1 (sortByYear base_c)) shock_pct with
      | .error e => .error ⟨500, e⟩
      | .ok sim =>
        let merged := (simLeftJoin sim (riskPoolFor risk c)).mergeSort simRankLE
        let records := merged.map _round_floats
        .ok { country := c
              shock_pct := pythonRound6 shock_pct
              n_records := records.length
              records := records
              note := "This simulation is computed live from latest base-year data per commodity." }

/-- Row built by the two left joins of `risk_by_country` (`src/api.py`
lines 161-173): a risk row, extended with an optional matching latest
base row and the three selected columns of an optional matching row of
the precomputed 20% simulation file.  `shortfall_abs` is filled in
afterwards by `_add_shortfall_abs`; `idr_shocked` is not selected by
this route. -/
def countryMergeRow (r : RiskRow) (b : Option BaseRow) (s : Option OutRow) : OutRow :=
  { country := r.country
    commodity := r.commodity
    risk_score := r.risk_score
    risk_band := r.risk_band
    mean_idr := r.mean_idr
    prod_vol_norm := r.prod_vol_norm
    import_vol_norm := r.import_vol_norm
    year := b.map BaseRow.year
    production_qty := b.bind BaseRow.production_qty
    import_qty := b.bind BaseRow.import_qty
    export_qty := b.bind BaseRow.export_qty
    apparent_consumption := b.bind BaseRow.apparent_consumption
    idr := b.bind BaseRow.idr
    shortfall_pct := s.bind OutRow.shortfall_pct
    shortfall_abs := none
    consumption_shocked := s.bind OutRow.consumption_shocked
    idr_shocked := none
    flag_zero_consumption_after_shock := s.bind OutRow.flag_zero_consumption_after_shock }

/-- The merge chain of `risk_by_country` (`src/api.py` lines 161-175):
risk rows left-joined with the latest base rows, then with the selected
columns of the default simulation file, then `_add_shortfall_abs`. -/
def countryMerge (risk_c : List RiskRow) (base_c : List BaseRow) (sim_c : List OutRow) :
    List OutRow :=
  ((risk_c.flatMap (fun r =>
      match base_c.filter (fun b => b.country == r.country && b.commodity == r.commodity) with
      | [] => [(r, (none : Option BaseRow))]
      | ms => ms.map (fun b => (r, some b)))).flatMap (fun p =>
    match sim_c.filter (fun s => s.country == p.1.country && s.commodity == p.1.commodity) with
    | [] => [countryMergeRow p.1 p.2 none]
    | ms => ms.map (fun s => countryMergeRow p.1 p.2 (some s)))).map _add_shortfall_abs

/-- `GET /risk/country/{country}` (`src/api.py` lines 143-196).  `sim`
is the preloaded 20% simulation file. -/
def risk_by_country (risk : List RiskRow) (base : List BaseRow) (sim : List OutRow)
    (country : String) : Except ApiError CountryResponse :=
  let risk_c := riskPoolFor risk country
  if risk_c.isEmpty then
    .error ⟨404, "No risk data for country=" ++ country ++ " (after cleaning)"⟩
  else
    let base_c_latest := latestBasePoolFor base country
    let sim_c := _filter_special_areas OutRow.country (_country_match OutRow.country sim country)
    let merged := (countryMerge risk_c base_c_latest sim_c).mergeSort riskScoreLE
    let records := merged.map _round_floats
    .ok { country := ((merged.map OutRow.country).headD "")
          n_records := merged.length
          records := records
          note := "shortfall_* / consumption_shocked come from the precomputed 20% import-drop simulation file." }

/-- `GET /meta/commodities` (`src/api.py` lines 397-401).  The
`commodity` column is non-null in this embedding, so `dropna()` is the
identity. -/
def list_commodities (risk : List RiskRow) : CommoditiesResponse :=
  let items := sortedStr (dedupFirst (risk.map RiskRow.commodity))
  { n := items.length, commodities := items }

/-- `GET /meta/countries` (`src/api.py` lines 404-419).  Note the count
`n` is taken before the `[:200]` truncation, exactly as in the source.
`if q:` means the filter is skipped for an absent or empty query. -/
def list_countries (risk : List RiskRow) (q : Option String) : CountriesResponse :=
  let countries := _filter_special_areas id (dedupFirst (risk.map RiskRow.country))
  let countries :=
    match q with
    | none => countries
    | some qs =>
        if qs == "" then countries
        else countries.filter (fun c => strContains c.toLower qs.trim.toLower)
  let countries := sortedStr countries
  { n := countries.length, countries := countries.take 200 }

/-- `GET /meta/shocks_cached` (`src/api.py` lines 422-451), over the
integer percents discovered in the snapshot directory (the glob
enumeration order of `available` is arbitrary). -/
def list_cached_shocks (available : List ℤ) : ShocksResponse :=
  let shocks_sorted := (available.map (fun k => (k : ℚ) / 100)).mergeSort
    (fun a b => decide (a ≤ b))
  let files_sorted := (available.mergeSort (fun a b => decide (a ≤ b))).map
    (fun k => "shock_simulation_latest_importdrop" ++ toString k ++ ".parquet")
  { n := shocks_sorted.length, shocks := shocks_sorted, files := files_sorted }

/-- The base record of the worked example in the spec:
country Malta, commodity Wheat, apparent consumption 100000, imports 80000. -/
def maltaRow : BaseRow :=
  { country := "Malta", commodity := "Wheat", year := 2020
    production_qty := some 30000, import_qty := some 80000, export_qty := some 10000
    apparent_consumption := some 100000, idr := some (4/5) }

/-- A base record whose (country, commodity) has no risk-table entry. -/
def riceRow : BaseRow :=
  { country := "Malta", commodity := "Rice", year := 2020
    production_qty := some 60, import_qty := some 50, export_qty := some 10
    apparent_consumption := some 100, idr := some (1/2) }

/-- A base record for a blocklisted special area. -/
def specialBaseRow : BaseRow :=
  { country := "China, mainland", commodity := "Wheat", year := 2020
    production_qty := some 1000, import_qty := some 100, export_qty := some 0
    apparent_consumption := some 500, idr := some (1/5) }

/-- Risk-table fixture: a scored (Malta, Wheat) entry and a special-area
entry; no entry for (Malta, Rice). -/
def fxRisk : List RiskRow :=
  [{ country := "Malta", commodity := "Wheat", risk_score := some (9/10)
     risk_band := some "High", mean_idr := some (4/5), prod_vol_norm := some (1/10)
     import_vol_norm := some (1/5) },
   { country := "China, mainland", commodity := "Wheat", risk_score := some (1/2)
     risk_band := some "Medium", mean_idr := none, prod_vol_norm := none
     import_vol_norm := none }]

/-- Base-table fixture. -/
def fxBase : List BaseRow := [maltaRow, riceRow, specialBaseRow]

/-- An `OutRow` with every optional field unset. -/
def blankOut : OutRow :=
  { country := "", commodity := "", risk_score := none, risk_band := none
    mean_idr := none, prod_vol_norm := none, import_vol_norm := none, year := none
    production_qty := none, import_qty := none, export_qty := none
    apparent_consumption := none, idr := none, shortfall_pct := none
    shortfall_abs := none, consumption_shocked := none, idr_shocked := none
    flag_zero_consumption_after_shock := none }

/-- A cached-snapshot row for (Malta, Wheat). -/
def fxSimRow : OutRow :=
  { blankOut with
    country := "Malta", commodity := "Wheat", risk_score := some (9/10),
    risk_band := some "High", apparent_consumption := some 100000,
    shortfall_pct := some (4/25), shortfall_abs := some 16000,
    consumption_shocked := some 84000, flag_zero_consumption_after_shock := some false }

/-- A cached-snapshot row for a blocklisted special area. -/
def specialOutRow : OutRow :=
  { blankOut with
    country := "China, mainland", commodity := "Wheat",
    risk_score := some (1/2), apparent_consumption := some 500,
    consumption_shocked := some 400 }

/-- Preloaded 20% simulation-file fixture. -/
def fxSim : List OutRow := [fxSimRow, specialOutRow]

/-- Snapshot-store fixture: a single cached snapshot at 35%. -/
def fxStore : List (ℤ × List OutRow) := [(35, [fxSimRow, specialOutRow])]

/-- Snapshot-store fixture whose only snapshot holds only special-area
rows. -/
def fxStoreSpecial : List (ℤ × List OutRow) := [(35, [specialOutRow])]

/-- The 201 distinct short country names of the `list_countries`
counterexample fixture. -/
def ce8Names : List String :=
  ["C000", "C001", "C002", "C003", "C004", "C005", "C006", "C007", "C008", "C009",
   "C010", "C011", "C012", "C013", "C014", "C015", "C016", "C017", "C018", "C019",
   "C020", "C021", "C022", "C023", "C024", "C025", "C026", "C027", "C028", "C029",
   "C030", "C031", "C032", "C033", "C034", "C035", "C036", "C037", "C038", "C039",
   "C040", "C041", "C042", "C043", "C044", "C045", "C046", "C047", "C048", "C049",
   "C050", "C051", "C052", "C053", "C054", "C055", "C056", "C057", "C058", "C059",
   "C060", "C061", "C062", "C063", "C064", "C065", "C066", "C067", "C068", "C069",
   "C070", "C071", "C072", "C073", "C074", "C075", "C076", "C077", "C078", "C079",
   "C080", "C081", "C082", "C083", "C084", "C085", "C086", "C087", "C088", "C089",
   "C090", "C091", "C092", "C093", "C094", "C095", "C096", "C097", "C098", "C099",
   "C100", "C101", "C102", "C103", "C104", "C105", "C106", "C107", "C108", "C109",
   "C110", "C111", "C112", "C113", "C114", "C115", "C116", "C117", "C118", "C119",
   "C120", "C121", "C122", "C123", "C124", "C125", "C126", "C127", "C128", "C129",
   "C130", "C131", "C132", "C133", "C134", "C135", "C136", "C137", "C138", "C139",
   "C140", "C141", "C142", "C143", "C144", "C145", "C146", "C147", "C148", "C149",
   "C150", "C151", "C152", "C153", "C154", "C155", "C156", "C157", "C158", "C159",
   "C160", "C161", "C162", "C163", "C164", "C165", "C166", "C167", "C168", "C169",
   "C170", "C171", "C172", "C173", "C174", "C175", "C176", "C177", "C178", "C179",
   "C180", "C181", "C182", "C183", "C184", "C185", "C186", "C187", "C188", "C189",
   "C190", "C191", "C192", "C193", "C194", "C195", "C196", "C197", "C198", "C199",
   "C200"]

/-- Risk-table fixture with 201 distinct plain country names. -/
def ce8_risk : List RiskRow :=
  ce8Names.map (fun c =>
    { country := c, commodity := "Wheat", risk_score := none
      risk_band := none, mean_idr := none, prod_vol_norm := none
      import_vol_norm := none })

theorem cleanNum_nonneg (x : Option ℚ) : 0 ≤ cleanNum x := le_max_left 0 _

theorem simulate_ok_eq {rows : List BaseRow} {s : ℚ} {out : List SimRow}
    (h : simulate_import_shock rows s = .ok out) : out = rows.map (shockRecord s) := by
  unfold simulate_import_shock at h
  split at h
  · exact (Except.ok.inj h).symm
  · exact absurd h (by simp)

/-- C1: for every input record, `simulate_import_shock` at a shock
fraction `s ∈ [0, 1]` computes, with `C` the cleaned apparent
consumption and `I` the cleaned import quantity:
`imports_used = min(I, C)`, `imports_shocked = imports_used * (1 - s)`,
`consumption_shocked = max(0, C - s * imports_used)`,
`shortfall_abs = max(0, C - consumption_shocked)`, and
`shortfall_pct = shortfall_abs / C` when `C > 0`, undefined otherwise;
on the record with `C = 100000`, `I = 80000` at `s = 0.20` it yields
`imports_used = 80000`, `imports_shocked = 64000`,
`consumption_shocked = 84000`, `shortfall_abs = 16000`,
`shortfall_pct = 0.16`. -/
theorem C1_shock_formulas :
    (∀ (shock_pct : ℚ) (b : BaseRow), 0 ≤ shock_pct → shock_pct ≤ 1 →
      (shockRecord shock_pct b).imports_used =
        min (cleanNum b.import_qty) (cleanNum b.apparent_consumption) ∧
      (shockRecord shock_pct b).imports_shocked =
        (shockRecord shock_pct b).imports_used * (1 - shock_pct) ∧
      (shockRecord shock_pct b).consumption_shocked =
        max 0 (cleanNum b.apparent_consumption -
          shock_pct * (shockRecord shock_pct b).imports_used) ∧
      (shockRecord shock_pct b).shortfall_abs =
        max 0 (cleanNum b.apparent_consumption -
          (shockRecord shock_pct b).consumption_shocked) ∧
      (0 < cleanNum b.apparent_consumption →
        (shockRecord shock_pct b).shortfall_pct =
          some ((shockRecord shock_pct b).shortfall_abs /
            cleanNum b.apparent_consumption)) ∧
      (cleanNum b.apparent_consumption = 0 →
        (shockRecord shock_pct b).shortfall_pct = none)) ∧
    ((simulate_import_shock [maltaRow] (20/100)).toOption.getD []).map
        (fun o => (o.imports_used, o.imports_shocked, o.consumption_shocked,
          o.shortfall_abs, o.shortfall_pct)) =
      [(80000, 64000, 84000, 16000, some (16/100))] := by
  constructor
  · intro s b _ _
    refine ⟨rfl, rfl, rfl, rfl, ?_, ?_⟩
    · intro h
      show (if 0 < cleanNum b.apparent_consumption then _ else _) = _
      rw [if_pos h]
      rfl
    · intro h
      show (if 0 < cleanNum b.apparent_consumption then _ else _) = _
      rw [h]
      simp
  · with_unfolding_all rfl

theorem C1_witness :
    0 ≤ (20/100 : ℚ) ∧ (20/100 : ℚ) ≤ 1 ∧
    (shockRecord (20/100) maltaRow).imports_used =
      min (cleanNum maltaRow.import_qty) (cleanNum maltaRow.apparent_consumption) :=
  ⟨by norm_num, by norm_num,
    (C1_shock_formulas.1 (20/100) maltaRow (by norm_num) (by norm_num)).1⟩

/-- C2: for every shock fraction `s ∈ [0, 1]` and every record whose
cleaned apparent consumption `C` and import quantity `I` satisfy
`C ≥ 0` and `I ≥ 0` (which cleaning guarantees), the output of
`simulate_import_shock` satisfies
`0 ≤ consumption_shocked ≤ apparent_consumption` and
`shortfall_abs ≥ 0`. -/
theorem C2_shock_bounds (shock_pct : ℚ) (rows : List BaseRow) (out : List SimRow)
    (h0 : 0 ≤ shock_pct) (_h1 : shock_pct ≤ 1)
    (h : simulate_import_shock rows shock_pct = .ok out) :
    ∀ o ∈ out, 0 ≤ o.consumption_shocked ∧
      o.consumption_shocked ≤ o.apparent_consumption ∧ 0 ≤ o.shortfall_abs := by
  obtain rfl := simulate_ok_eq h
  intro o ho
  obtain ⟨b, -, rfl⟩ := List.mem_map.1 ho
  refine ⟨le_max_left 0 _, ?_, le_max_left 0 _⟩
  show max 0 (cleanNum b.apparent_consumption - shock_pct *
      min (cleanNum b.import_qty) (cleanNum b.apparent_consumption)) ≤
    cleanNum b.apparent_consumption
  refine max_le (cleanNum_nonneg _) (sub_le_self _ ?_)
  exact mul_nonneg h0 (le_min (cleanNum_nonneg _) (cleanNum_nonneg _))

theorem C2_witness :
    0 ≤ (shockRecord (1/2) maltaRow).consumption_shocked ∧
    (shockRecord (1/2) maltaRow).consumption_shocked ≤
      (shockRecord (1/2) maltaRow).apparent_consumption ∧
    0 ≤ (shockRecord (1/2) maltaRow).shortfall_abs :=
  C2_shock_bounds (1/2) [maltaRow] [shockRecord (1/2) maltaRow]
    (by norm_num) (by norm_num) (by with_unfolding_all rfl)
    (shockRecord (1/2) maltaRow) (List.mem_singleton.mpr rfl)

/-- C3: running `simulate_import_shock` with shock fraction 0 is a
no-op shock: for every input record, `consumption_shocked` equals the
(cleaned) apparent consumption and `shortfall_abs` equals 0. -/
theorem C3_zero_shock (rows : List BaseRow) (out : List SimRow)
    (h : simulate_import_shock rows 0 = .ok out) :
    ∀ o ∈ out, o.consumption_shocked = o.apparent_consumption ∧ o.shortfall_abs = 0 := by
  obtain rfl := simulate_ok_eq h
  intro o ho
  obtain ⟨b, -, rfl⟩ := List.mem_map.1 ho
  have hC : (0 : ℚ) ≤ cleanNum b.apparent_consumption := cleanNum_nonneg _
  constructor
  · show max 0 (cleanNum b.apparent_consumption - 0 *
        min (cleanNum b.import_qty) (cleanNum b.apparent_consumption)) =
      cleanNum b.apparent_consumption
    rw [zero_mul, sub_zero, max_eq_right hC]
  · show max 0 (cleanNum b.apparent_consumption -
        max 0 (cleanNum b.apparent_consumption - 0 *
          min (cleanNum b.import_qty) (cleanNum b.apparent_consumption))) = 0
    rw [zero_mul, sub_zero, max_eq_right hC, sub_self, max_self]

theorem C3_witness :
    (shockRecord 0 maltaRow).consumption_shocked =
      (shockRecord 0 maltaRow).apparent_consumption ∧
    (shockRecord 0 maltaRow).shortfall_abs = 0 :=
  C3_zero_shock [maltaRow] [shockRecord 0 maltaRow] (by with_unfolding_all rfl)
    (shockRecord 0 maltaRow) (List.mem_singleton.mpr rfl)

theorem containsSub_iff (p : List Char) (l : List Char) :
    containsSub p l = true ↔ p <:+: l := by
  induction l with
  | nil => simp [containsSub, List.isEmpty_iff, List.infix_nil]
  | cons c cs ih =>
      simp [containsSub, List.isPrefixOf_iff_prefix, ih, List.infix_cons_iff]

/-- C6: cached-snapshot resolution maps a requested shock fraction to a
snapshot identifier by rounding the fraction to the nearest integer
percent (Python banker's rounding); any two fractions that round to the
same integer percent resolve to the same snapshot, and in particular
0.351 resolves to the same snapshot as 0.35. -/
theorem C6_cached_resolution_rounding :
    (∀ (available : List ℤ) (shock_pct : ℚ) (k : ℤ),
      _shock_to_cached_file available shock_pct = .ok k →
      k = pythonRound (shock_pct * 100)) ∧
    (∀ (available : List ℤ) (s t : ℚ),
      pythonRound (s * 100) = pythonRound (t * 100) →
      ∀ k, (_shock_to_cached_file available s = .ok k ↔
        _shock_to_cached_file available t = .ok k)) ∧
    (∀ (available : List ℤ) (k : ℤ),
      _shock_to_cached_file available (351/1000) = .ok k ↔
        _shock_to_cached_file available (35/100) = .ok k) := by
  have key : ∀ (available : List ℤ) (s t : ℚ),
      pythonRound (s * 100) = pythonRound (t * 100) →
      ∀ k, (_shock_to_cached_file available s = .ok k ↔
        _shock_to_cached_file available t = .ok k) := by
    intro available s t h k
    simp only [_shock_to_cached_file]
    rw [h]
    split <;> simp
  refine ⟨?_, key, fun available k => key available _ _ ?_ k⟩
  · intro available s k h
    simp only [_shock_to_cached_file] at h
    split at h
    · exact (Except.ok.inj h).symm
    · exact absurd h (by simp)
  · with_unfolding_all rfl

theorem C6_witness :
    (_shock_to_cached_file [35] (351/1000) = .ok 35 ↔
      _shock_to_cached_file [35] (35/100) = .ok 35) ∧
    _shock_to_cached_file [35] (35/100) = .ok 35 ∧
    (35 : ℤ) = pythonRound ((35/100 : ℚ) * 100) :=
  ⟨C6_cached_resolution_rounding.2.2 [35] 35, by with_unfolding_all rfl,
    C6_cached_resolution_rounding.1 [35] (35/100) 35 (by with_unfolding_all rfl)⟩

/-- C9 (amended): when a cached shock fraction is requested for which no
snapshot exists, `_shock_to_cached_file` fails with a NotFound outcome
(an HTTP 404, never a crash) whose payload names the endpoint that
lists the available cached fractions (`/meta/shocks_cached`) and hints
to use live simulation (`/risk/top (live)`); the payload itself does
not include the list of available fractions. -/
theorem C9_cached_not_found (available : List ℤ) (shock_pct : ℚ)
    (h : available.contains (pythonRound (shock_pct * 100)) = false) :
    _shock_to_cached_file available shock_pct =
      .error ⟨404, cachedNotFoundDetail shock_pct⟩ ∧
    strContains (cachedNotFoundDetail shock_pct) "/meta/shocks_cached" = true ∧
    strContains (cachedNotFoundDetail shock_pct) "/risk/top (live)" = true := by
  have tailSuffix : ∀ pre : String,
      (". Available cached shocks: /meta/shocks_cached . Use /risk/top (live) for non-cached shocks.").toList <:+
        (pre ++ ". Available cached shocks: /meta/shocks_cached . Use /risk/top (live) for non-cached shocks.").toList := by
    intro pre
    show _ <:+ (pre ++ _).data
    rw [String.data_append]
    exact List.suffix_append _ _
  refine ⟨?_, ?_, ?_⟩
  · have h2 : pythonRound (shock_pct * 100) ∉ available := by simpa using h
    simp [_shock_to_cached_file, h2]
  · refine (containsSub_iff _ _).mpr (List.IsInfix.trans ?_ (tailSuffix _).isInfix)
    exact (containsSub_iff _ _).mp (by decide)
  · refine (containsSub_iff _ _).mpr (List.IsInfix.trans ?_ (tailSuffix _).isInfix)
    exact (containsSub_iff _ _).mp (by decide)

theorem C9_witness :
    _shock_to_cached_file [10, 20, 35, 50] (42/100) =
      .error ⟨404, cachedNotFoundDetail (42/100)⟩ ∧
    strContains (cachedNotFoundDetail (42/100)) "/meta/shocks_cached" = true :=
  ⟨(C9_cached_not_found [10, 20, 35, 50] (42/100) (by with_unfolding_all rfl)).1,
    (C9_cached_not_found [10, 20, 35, 50] (42/100) (by with_unfolding_all rfl)).2.1⟩

/-- C9, counterexample to the claim as stated: the NotFound payload for
a request of 0.42 is byte-identical whether the available cached
fractions are {0.10, 0.20, 0.35, 0.50} or none at all, so it cannot
carry the list of the actually available cached fractions. -/
theorem C9_counterexample :
    _shock_to_cached_file [10, 20, 35, 50] (42/100) =
      .error ⟨404, cachedNotFoundDetail (42/100)⟩ ∧
    _shock_to_cached_file [] (42/100) =
      .error ⟨404, cachedNotFoundDetail (42/100)⟩ := by
  constructor <;> with_unfolding_all rfl

theorem cmpQ_eq_iff {a b : ℚ} : cmpQ a b = .eq ↔ a = b := by
  unfold cmpQ
  rcases lt_trichotomy a b with h | h | h
  · rw [if_pos h]
    simp [h.ne]
  · subst h
    rw [if_neg (lt_irrefl a), if_neg (lt_irrefl a)]
    simp
  · rw [if_neg (lt_asymm h), if_pos h]
    simp [h.ne']

theorem cmpQ_lt_iff {a b : ℚ} : cmpQ a b = .lt ↔ a < b := by
  unfold cmpQ
  rcases lt_trichotomy a b with h | h | h
  · rw [if_pos h]
    simp [h]
  · subst h
    rw [if_neg (lt_irrefl a), if_neg (lt_irrefl a)]
    simp [lt_irrefl]
  · rw [if_neg (lt_asymm h), if_pos h]
    simp [lt_asymm h]

theorem cmpQ_gt_iff {a b : ℚ} : cmpQ a b = .gt ↔ b < a := by
  unfold cmpQ
  rcases lt_trichotomy a b with h | h | h
  · rw [if_pos h]
    simp [lt_asymm h]
  · subst h
    rw [if_neg (lt_irrefl a), if_neg (lt_irrefl a)]
    simp [lt_irrefl]
  · rw [if_neg (lt_asymm h), if_pos h]
    simp [h]

theorem descNaLast_refl (x : Option ℚ) : descNaLast x x = .eq := by
  cases x <;> simp [descNaLast, cmpQ_eq_iff]

theorem descNaLast_eq_iff : ∀ {x y : Option ℚ}, descNaLast x y = .eq ↔ x = y
  | none, none => by simp [descNaLast]
  | none, some b => by simp [descNaLast]
  | some a, none => by simp [descNaLast]
  | some a, some b => by
      show cmpQ b a = .eq ↔ _
      rw [cmpQ_eq_iff]
      constructor
      · intro h
        rw [h]
      · intro h
        injection h with h
        rw [h]

theorem descNaLast_lt_trans {x y z : Option ℚ} (h1 : descNaLast x y = .lt)
    (h2 : descNaLast y z = .lt) : descNaLast x z = .lt := by
  cases x <;> cases y <;> cases z <;>
    simp_all [descNaLast, cmpQ_lt_iff]
  exact h2.trans h1

theorem descNaLast_gt_to_lt : ∀ {x y : Option ℚ}, descNaLast x y = .gt →
    descNaLast y x = .lt
  | none, none => by simp [descNaLast]
  | none, some b => fun _ => rfl
  | some a, none => by simp [descNaLast]
  | some a, some b => by
      intro h
      show cmpQ a b = .lt
      rw [cmpQ_lt_iff]
      exact cmpQ_gt_iff.mp h

theorem ordering_ne_gt_iff (o : Ordering) : o ≠ .gt ↔ o = .lt ∨ o = .eq := by
  cases o <;> simp

theorem then_eq_gt_iff {o₁ o₂ : Ordering} :
    o₁.then o₂ = .gt ↔ o₁ = .gt ∨ (o₁ = .eq ∧ o₂ = .gt) := by
  cases o₁ <;> simp [Ordering.then]

theorem then_ne_gt_iff {o₁ o₂ : Ordering} :
    o₁.then o₂ ≠ .gt ↔ o₁ = .lt ∨ (o₁ = .eq ∧ o₂ ≠ .gt) := by
  cases o₁ <;> simp [Ordering.then]

theorem descNaLast_le_trans {x y z : Option ℚ} (h1 : descNaLast x y ≠ .gt)
    (h2 : descNaLast y z ≠ .gt) : descNaLast x z ≠ .gt := by
  rw [ordering_ne_gt_iff]
  rcases (ordering_ne_gt_iff _).mp h1 with hl | he
  · rcases (ordering_ne_gt_iff _).mp h2 with hl2 | he2
    · exact Or.inl (descNaLast_lt_trans hl hl2)
    · exact Or.inl ((descNaLast_eq_iff.mp he2) ▸ hl)
  · rcases (ordering_ne_gt_iff _).mp h2 with hl2 | he2
    · exact Or.inl ((descNaLast_eq_iff.mp he).symm ▸ hl2)
    · exact Or.inr (descNaLast_eq_iff.mpr
        ((descNaLast_eq_iff.mp he).trans (descNaLast_eq_iff.mp he2)))

theorem rankLE_iff {a b : OutRow} : rankLE a b = true ↔ rankOrd a b ≠ .gt := by
  unfold rankLE
  cases h : rankOrd a b <;> simp [h] <;> decide

theorem rankOrd_gt_to_lt {a b : OutRow} (h : rankOrd a b = .gt) : rankOrd b a = .lt := by
  unfold rankOrd at h ⊢
  rcases then_eq_gt_iff.mp h with h1 | ⟨h1, h2⟩
  · rw [descNaLast_gt_to_lt h1]
    rfl
  · rw [descNaLast_eq_iff.mp h1, descNaLast_refl]
    rcases then_eq_gt_iff.mp h2 with h3 | ⟨h3, h4⟩
    · rw [descNaLast_gt_to_lt h3]
      rfl
    · rw [descNaLast_eq_iff.mp h3, descNaLast_refl, descNaLast_gt_to_lt h4]
      rfl

theorem rankLE_total : ∀ a b : OutRow, (rankLE a b || rankLE b a) = true := by
  intro a b
  rw [Bool.or_eq_true, rankLE_iff, rankLE_iff]
  by_cases h : rankOrd a b = .gt
  · right
    rw [rankOrd_gt_to_lt h]
    simp
  · exact Or.inl h

theorem rankLE_trans : ∀ a b c : OutRow, rankLE a b = true → rankLE b c = true →
    rankLE a c = true := by
  intro a b c hab hbc
  rw [rankLE_iff] at hab hbc ⊢
  unfold rankOrd at hab hbc ⊢
  rw [then_ne_gt_iff] at hab hbc ⊢
  rcases hab with h1 | ⟨h1, hab2⟩
  · rcases hbc with h2 | ⟨h2, _⟩
    · exact Or.inl (descNaLast_lt_trans h1 h2)
    · exact Or.inl ((descNaLast_eq_iff.mp h2) ▸ h1)
  · rcases hbc with h2 | ⟨h2, hbc2⟩
    · exact Or.inl ((descNaLast_eq_iff.mp h1).symm ▸ h2)
    · refine Or.inr ⟨descNaLast_eq_iff.mpr
        ((descNaLast_eq_iff.mp h1).trans (descNaLast_eq_iff.mp h2)), ?_⟩
      rw [then_ne_gt_iff] at hab2 hbc2 ⊢
      rcases hab2 with h3 | ⟨h3, hab3⟩
      · rcases hbc2 with h4 | ⟨h4, _⟩
        · exact Or.inl (descNaLast_lt_trans h3 h4)
        · exact Or.inl ((descNaLast_eq_iff.mp h4) ▸ h3)
      · rcases hbc2 with h4 | ⟨h4, hbc3⟩
        · exact Or.inl ((descNaLast_eq_iff.mp h3).symm ▸ h4)
        · exact Or.inr ⟨descNaLast_eq_iff.mpr
            ((descNaLast_eq_iff.mp h3).trans (descNaLast_eq_iff.mp h4)),
            descNaLast_le_trans hab3 hbc3⟩

theorem rankOrd_eq_of_rankKey_eq {a b : OutRow} (h : rankKey a = rankKey b) :
    rankOrd a b = .eq := by
  unfold rankKey at h
  obtain ⟨h1, h2, h3⟩ : a.shortfall_abs = b.shortfall_abs ∧
      a.risk_score = b.risk_score ∧ a.apparent_consumption = b.apparent_consumption := by
    simpa [Prod.ext_iff] using h
  unfold rankOrd
  rw [h1, h2, h3, descNaLast_refl, descNaLast_refl, descNaLast_refl]
  rfl

theorem rankLE_of_rankKey_eq {a b : OutRow} (h : rankKey a = rankKey b) :
    rankLE a b = true := by
  rw [rankLE_iff, rankOrd_eq_of_rankKey_eq h]
  simp

theorem rankSort_filter_stable (l : List OutRow) (k : Option ℚ × Option ℚ × Option ℚ) :
    (rankSort l).filter (fun r => decide (rankKey r = k)) =
      l.filter (fun r => decide (rankKey r = k)) := by
  have hself : ∀ x ∈ l.filter (fun r => decide (rankKey r = k)),
      decide (rankKey x = k) = true := by
    intro x hx
    simpa using List.of_mem_filter hx
  have hpair : (l.filter (fun r => decide (rankKey r = k))).Pairwise
      (fun a b => rankLE a b = true) := by
    apply List.pairwise_of_forall_mem_list
    intro x hx y hy
    have hx1 := List.of_mem_filter hx
    have hy1 := List.of_mem_filter hy
    have hxk : rankKey x = k := by simpa using hx1
    have hyk : rankKey y = k := by simpa using hy1
    exact rankLE_of_rankKey_eq (hxk.trans hyk.symm)
  have hsub : (l.filter (fun r => decide (rankKey r = k))).Sublist (rankSort l) :=
    List.sublist_mergeSort rankLE_trans rankLE_total hpair (List.filter_sublist l)
  have hsub2 : (l.filter (fun r => decide (rankKey r = k))).Sublist
      ((rankSort l).filter (fun r => decide (rankKey r = k))) := by
    have h2 := hsub.filter (fun r => decide (rankKey r = k))
    rwa [List.filter_eq_self.mpr hself] at h2
  have hlen : ((rankSort l).filter (fun r => decide (rankKey r = k))).length =
      (l.filter (fun r => decide (rankKey r = k))).length :=
    ((List.mergeSort_perm l rankLE).filter (fun r => decide (rankKey r = k))).length_eq
  exact (hsub2.eq_of_length hlen.symm).symm

theorem top_risk_ok {risk : List RiskRow} {base : List BaseRow} {n : ℕ} {shock_pct : ℚ}
    {commodity : Option String} {resp : TopResponse}
    (h : top_risk risk base n shock_pct commodity = .ok resp) :
    resp = { shock_pct := pythonRound6 shock_pct
             commodity := commodity
             n_records := (((rankSort (topRiskMerged risk base shock_pct commodity)).take n).map
               _round_floats).length
             records := ((rankSort (topRiskMerged risk base shock_pct commodity)).take n).map
               _round_floats
             note := "Ranked by shortfall_abs DESC, then risk_score DESC, then apparent_consumption DESC (simulation computed live)." } := by
  unfold top_risk at h
  split at h
  · exact absurd h (by simp)
  split at h
  · exact absurd h (by simp)
  split at h
  · exact absurd h (by simp)
  split at h
  · exact absurd h (by simp)
  · rename_i sim_live heq
    obtain rfl := simulate_ok_eq heq
    simp only [Except.ok.injEq] at h
    subst h
    rfl

theorem top_risk_cached_ok {store : List (ℤ × List OutRow)} {n : ℕ} {shock_pct : ℚ}
    {commodity : Option String} {resp : TopResponse} {k : ℤ}
    (h : top_risk_cached store n shock_pct commodity = .ok resp)
    (hk : _shock_to_cached_file (store.map Prod.fst) shock_pct = .ok k) :
    resp = { shock_pct := pythonRound6 shock_pct
             commodity := commodity
             n_records := (((rankSort ((_filter_special_areas OutRow.country
               (commodityFilter commodity OutRow.commodity ((store.lookup k).getD []))).map
                 _add_shortfall_abs)).take n).map _round_floats).length
             records := ((rankSort ((_filter_special_areas OutRow.country
               (commodityFilter commodity OutRow.commodity ((store.lookup k).getD []))).map
                 _add_shortfall_abs)).take n).map _round_floats
             note := "Loaded from cached file: shock_simulation_latest_importdrop" ++
               toString k ++ ".parquet (precomputed)." } := by
  unfold top_risk_cached at h
  split at h
  · exact absurd h (by simp)
  split at h
  · exact absurd h (by simp)
  split at h
  · exact absurd h (by simp)
  · rename_i k' heq
    rw [hk] at heq
    obtain rfl := Except.ok.inj heq
    dsimp only at h
    split at h
    · exact absurd h (by simp)
    · simp only [Except.ok.injEq] at h
      subst h
      rfl

theorem simulate_risk_ok {risk : List RiskRow} {base : List BaseRow} {country : String}
    {shock_pct : ℚ} {resp : SimulateResponse}
    (h : simulate_risk risk base country shock_pct = .ok resp) :
    resp = { country := country.trim
             shock_pct := pythonRound6 shock_pct
             n_records := (((simLeftJoin
               ((latestBasePoolFor base country.trim).map (shockRecord shock_pct))
               (riskPoolFor risk country.trim)).mergeSort simRankLE).map _round_floats).length
             records := ((simLeftJoin
               ((latestBasePoolFor base country.trim).map (shockRecord shock_pct))
               (riskPoolFor risk country.trim)).mergeSort simRankLE).map _round_floats
             note := "This simulation is computed live from latest base-year data per commodity." } := by
  unfold simulate_risk at h
  split at h
  · exact absurd h (by simp)
  dsimp only at h
  split at h
  · exact absurd h (by simp)
  split at h
  · exact absurd h (by simp)
  · rename_i sim heq
    obtain rfl := simulate_ok_eq heq
    simp only [Except.ok.injEq] at h
    subst h
    rfl

theorem risk_by_country_ok {risk : List RiskRow} {base : List BaseRow} {sim : List OutRow}
    {country : String} {resp : CountryResponse}
    (h : risk_by_country risk base sim country = .ok resp) :
    resp = { country := ((((countryMerge (riskPoolFor risk country)
               (latestBasePoolFor base country)
               (_filter_special_areas OutRow.country
                 (_country_match OutRow.country sim country))).mergeSort
                   riskScoreLE).map OutRow.country).headD "")
             n_records := ((countryMerge (riskPoolFor risk country)
               (latestBasePoolFor base country)
               (_filter_special_areas OutRow.country
                 (_country_match OutRow.country sim country))).mergeSort riskScoreLE).length
             records := (((countryMerge (riskPoolFor risk country)
               (latestBasePoolFor base country)
               (_filter_special_areas OutRow.country
                 (_country_match OutRow.country sim country))).mergeSort
                   riskScoreLE).map _round_floats)
             note := "shortfall_* / consumption_shocked come from the precomputed 20% import-drop simulation file." } := by
  unfold risk_by_country at h
  dsimp only at h
  split at h
  · exact absurd h (by simp)
  · simp only [Except.ok.injEq] at h
    subst h
    rfl

/-- C5: the ranking sort used by the top-N operations is deterministic
and stable: rows are ordered by shortfall_abs descending, ties then by
risk_score descending, remaining ties by apparent_consumption
descending (pairwise sortedness under `rankLE`); rows still tied on all
three keys appear in the ranked output in the same relative order as in
the input (the filter by any key triple is preserved); and both top-N
operations build their records by truncating to N only after this sort
(rounding afterwards). -/
theorem C5_ranking_sort_stable :
    (∀ l : List OutRow, (rankSort l).Pairwise (fun a b => rankLE a b = true)) ∧
    (∀ (l : List OutRow) (k : Option ℚ × Option ℚ × Option ℚ),
      (rankSort l).filter (fun r => decide (rankKey r = k)) =
        l.filter (fun r => decide (rankKey r = k))) ∧
    (∀ risk base n shock_pct commodity resp,
      top_risk risk base n shock_pct commodity = .ok resp →
      resp.records =
        ((rankSort (topRiskMerged risk base shock_pct commodity)).take n).map
          _round_floats) ∧
    (∀ store n shock_pct commodity resp k,
      top_risk_cached store n shock_pct commodity = .ok resp →
      _shock_to_cached_file (store.map Prod.fst) shock_pct = .ok k →
      resp.records = ((rankSort ((_filter_special_areas OutRow.country
        (commodityFilter commodity OutRow.commodity ((store.lookup k).getD []))).map
          _add_shortfall_abs)).take n).map _round_floats) := by
  refine ⟨fun l => List.sorted_mergeSort rankLE_trans rankLE_total l,
    rankSort_filter_stable, ?_, ?_⟩
  · intro risk base n s c resp h
    rw [top_risk_ok h]
  · intro store n s c resp k h hk
    rw [top_risk_cached_ok h hk]

set_option maxRecDepth 8000 in
theorem C5_witness :
    (rankSort fxSim).Pairwise (fun a b => rankLE a b = true) ∧
    ((rankSort fxSim).filter (fun r => decide (rankKey r = rankKey fxSimRow)) =
      fxSim.filter (fun r => decide (rankKey r = rankKey fxSimRow))) ∧
    (top_risk fxRisk fxBase 20 (1/5) none).map TopResponse.records =
      .ok (((rankSort (topRiskMerged fxRisk fxBase (1/5) none)).take 20).map
        _round_floats) ∧
    (top_risk_cached fxStore 20 (35/100) none).map TopResponse.records =
      .ok (((rankSort ((_filter_special_areas OutRow.country
        (commodityFilter none OutRow.commodity ((fxStore.lookup 35).getD []))).map
          _add_shortfall_abs)).take 20).map _round_floats) := by
  refine ⟨C5_ranking_sort_stable.1 fxSim,
    C5_ranking_sort_stable.2.1 fxSim (rankKey fxSimRow), ?_, ?_⟩
  · obtain ⟨resp, h⟩ : ∃ r, top_risk fxRisk fxBase 20 (1/5) none = .ok r :=
      ⟨_, by with_unfolding_all rfl⟩
    rw [h]
    simp only [Except.map]
    rw [C5_ranking_sort_stable.2.2.1 _ _ _ _ _ _ h]
  · obtain ⟨resp, h⟩ : ∃ r, top_risk_cached fxStore 20 (35/100) none = .ok r :=
      ⟨_, by with_unfolding_all rfl⟩
    rw [h]
    simp only [Except.map]
    rw [C5_ranking_sort_stable.2.2.2 fxStore 20 (35/100) none resp 35 h
      (by with_unfolding_all rfl)]

theorem round_floats_country (r : OutRow) : (_round_floats r).country = r.country := rfl

theorem add_shortfall_country (r : OutRow) : (_add_shortfall_abs r).country = r.country := rfl

theorem mem_filter_special {α : Type} (countryOf : α → String) (df : List α) (x : α)
    (hx : x ∈ _filter_special_areas countryOf df) :
    _special_area_mask (countryOf x) = false := by
  unfold _filter_special_areas at hx
  simpa using List.of_mem_filter hx

theorem mem_riskBaseInner {risk : List RiskRow} {base : List BaseRow}
    {p : RiskRow × BaseRow} (hp : p ∈ riskBaseInner risk base) : p.1 ∈ risk := by
  unfold riskBaseInner at hp
  obtain ⟨r, hr, hb⟩ := List.mem_flatMap.mp hp
  obtain ⟨b, -, rfl⟩ := List.mem_map.mp hb
  exact hr

theorem mem_attachSim {sim : List SimRow} {rb : List (RiskRow × BaseRow)} {o : OutRow}
    (ho : o ∈ attachSim sim rb) :
    ∃ p ∈ rb, o.country = p.1.country ∧ o.commodity = p.1.commodity := by
  unfold attachSim at ho
  obtain ⟨p, hp, hon⟩ := List.mem_flatMap.mp ho
  refine ⟨p, hp, ?_⟩
  revert hon
  split
  · intro hon
    obtain rfl := List.mem_singleton.mp hon
    exact ⟨rfl, rfl⟩
  · intro hon
    obtain ⟨s, -, rfl⟩ := List.mem_map.mp hon
    exact ⟨rfl, rfl⟩

theorem mem_countryMerge {risk_c : List RiskRow} {base_c : List BaseRow}
    {sim_c : List OutRow} {o : OutRow} (ho : o ∈ countryMerge risk_c base_c sim_c) :
    ∃ r ∈ risk_c, o.country = r.country := by
  unfold countryMerge at ho
  obtain ⟨o', ho', rfl⟩ := List.mem_map.mp ho
  obtain ⟨p, hp, hon⟩ := List.mem_flatMap.mp ho'
  obtain ⟨r, hr, hpr⟩ := List.mem_flatMap.mp hp
  have hp1 : p.1 = r := by
    revert hpr
    split
    · intro hpr
      obtain rfl := List.mem_singleton.mp hpr
      rfl
    · intro hpr
      obtain ⟨b, -, rfl⟩ := List.mem_map.mp hpr
      rfl
  refine ⟨r, hr, ?_⟩
  rw [add_shortfall_country]
  revert hon
  split
  · intro hon
    obtain rfl := List.mem_singleton.mp hon
    exact congrArg RiskRow.country hp1
  · intro hon
    obtain ⟨s, -, rfl⟩ := List.mem_map.mp hon
    exact congrArg RiskRow.country hp1

theorem strContainsCI_mono {p q : String}
    (hpq : containsSub q.toLower.toList p.toLower.toList = true) {c : String}
    (h : strContainsCI c p = true) : strContainsCI c q = true := by
  unfold strContainsCI at h ⊢
  rw [containsSub_iff] at hpq h ⊢
  exact hpq.trans h

theorem not_blocked_of_mask {c : String} (h : _special_area_mask c = false) :
    ∀ pat ∈ _DROP_COUNTRY_SUBSTRINGS, strContainsCI c pat = false := by
  intro pat hpat
  unfold _special_area_mask at h
  rw [Bool.or_eq_false_iff, Bool.or_eq_false_iff] at h
  have hpat3 : pat = ", mainland" ∨ pat = "Taiwan Province of" ∨
      pat = "(Kingdom of the)" := by simpa [_DROP_COUNTRY_SUBSTRINGS] using hpat
  rcases hpat3 with rfl | rfl | rfl
  · exact h.1.1
  · exact h.1.2
  · by_contra hcon
    rw [Bool.not_eq_false] at hcon
    have : strContainsCI c "Kingdom of the" = true :=
      strContainsCI_mono (by with_unfolding_all rfl) hcon
    rw [h.2] at this
    exact Bool.false_ne_true this

theorem headD_mem {α : Type} {l : List α} (d : α) (h : l ≠ []) : l.headD d ∈ l := by
  cases l
  · exact absurd rfl h
  · exact List.mem_cons_self _ _

theorem top_risk_cached_resolves {store : List (ℤ × List OutRow)} {n : ℕ}
    {shock_pct : ℚ} {commodity : Option String} {resp : TopResponse}
    (h : top_risk_cached store n shock_pct commodity = .ok resp) :
    ∃ k, _shock_to_cached_file (store.map Prod.fst) shock_pct = .ok k := by
  unfold top_risk_cached at h
  split at h
  · exact absurd h (by simp)
  split at h
  · exact absurd h (by simp)
  split at h
  · exact absurd h (by simp)
  · rename_i k heq
    exact ⟨k, heq⟩

/-- C7: for every query, a country string containing any blocklisted
special-area substring from `_DROP_COUNTRY_SUBSTRINGS` (matched
case-insensitively) never appears in the names returned by
`list_countries`, in the records of the country-profile operation
`risk_by_country`, or in the records of the ranked top-N operations
`top_risk` and `top_risk_cached`. -/
theorem C7_special_area_exclusion :
    (∀ (risk : List RiskRow) (q : Option String) (c : String),
      c ∈ (list_countries risk q).countries →
      ∀ pat ∈ _DROP_COUNTRY_SUBSTRINGS, strContainsCI c pat = false) ∧
    (∀ risk base sim country resp,
      risk_by_country risk base sim country = .ok resp →
      ∀ rec ∈ resp.records, ∀ pat ∈ _DROP_COUNTRY_SUBSTRINGS,
        strContainsCI rec.country pat = false) ∧
    (∀ risk base n shock_pct commodity resp,
      top_risk risk base n shock_pct commodity = .ok resp →
      ∀ rec ∈ resp.records, ∀ pat ∈ _DROP_COUNTRY_SUBSTRINGS,
        strContainsCI rec.country pat = false) ∧
    (∀ store n shock_pct commodity resp,
      top_risk_cached store n shock_pct commodity = .ok resp →
      ∀ rec ∈ resp.records, ∀ pat ∈ _DROP_COUNTRY_SUBSTRINGS,
        strContainsCI rec.country pat = false) := by
  refine ⟨?_, ?_, ?_, ?_⟩
  · intro risk q c hc pat hpat
    unfold list_countries at hc
    dsimp only at hc
    have h1 := List.mem_of_mem_take hc
    have h2 := List.mem_mergeSort.mp h1
    have h3 : c ∈ _filter_special_areas id (dedupFirst (risk.map RiskRow.country)) := by
      revert h2
      split
      · exact id
      · split
        · exact id
        · intro h2
          exact List.mem_of_mem_filter h2
    exact not_blocked_of_mask (mem_filter_special id _ _ h3) pat hpat
  · intro risk base sim country resp h rec hrec pat hpat
    rw [risk_by_country_ok h] at hrec
    dsimp only at hrec
    obtain ⟨o, ho, rfl⟩ := List.mem_map.mp hrec
    have ho2 := List.mem_mergeSort.mp ho
    obtain ⟨r, hr, hco⟩ := mem_countryMerge ho2
    unfold riskPoolFor at hr
    rw [round_floats_country, hco]
    exact not_blocked_of_mask (mem_filter_special RiskRow.country _ _ hr) pat hpat
  · intro risk base n shock_pct commodity resp h rec hrec pat hpat
    rw [top_risk_ok h] at hrec
    dsimp only at hrec
    obtain ⟨o, ho, rfl⟩ := List.mem_map.mp hrec
    have ho2 := List.mem_of_mem_take ho
    have ho3 := List.mem_mergeSort.mp ho2
    unfold topRiskMerged at ho3
    obtain ⟨p, hp, hco, -⟩ := mem_attachSim ho3
    have hr := mem_riskBaseInner hp
    unfold topRiskRiskPool at hr
    rw [round_floats_country, hco]
    exact not_blocked_of_mask (mem_filter_special RiskRow.country _ _ hr) pat hpat
  · intro store n shock_pct commodity resp h rec hrec pat hpat
    obtain ⟨k, hk⟩ := top_risk_cached_resolves h
    rw [top_risk_cached_ok h hk] at hrec
    dsimp only at hrec
    obtain ⟨o, ho, rfl⟩ := List.mem_map.mp hrec
    have ho2 := List.mem_of_mem_take ho
    have ho3 := List.mem_mergeSort.mp ho2
    obtain ⟨x, hx, rfl⟩ := List.mem_map.mp ho3
    rw [round_floats_country, add_shortfall_country]
    exact not_blocked_of_mask (mem_filter_special OutRow.country _ _ hx) pat hpat

set_option maxRecDepth 8000 in
theorem C7_witness :
    strContainsCI "Malta" ", mainland" = false ∧
    strContainsCI ((((risk_by_country fxRisk fxBase fxSim "Malta").toOption.getD
      { country := "", n_records := 0, records := [], note := "" }).records.headD
        blankOut).country) "Taiwan Province of" = false ∧
    strContainsCI ((((top_risk fxRisk fxBase 20 (1/5) none).toOption.getD
      { shock_pct := 0, commodity := none, n_records := 0, records := [],
        note := "" }).records.headD blankOut).country) "(Kingdom of the)" = false ∧
    strContainsCI ((((top_risk_cached fxStore 20 (35/100) none).toOption.getD
      { shock_pct := 0, commodity := none, n_records := 0, records := [],
        note := "" }).records.headD blankOut).country) ", mainland" = false := by
  refine ⟨?_, ?_, ?_, ?_⟩
  · exact C7_special_area_exclusion.1 fxRisk none "Malta"
      (of_decide_eq_true (by with_unfolding_all rfl)) ", mainland" (by decide)
  · obtain ⟨resp, h⟩ : ∃ r, risk_by_country fxRisk fxBase fxSim "Malta" = .ok r :=
      ⟨_, by with_unfolding_all rfl⟩
    have hne : resp.records ≠ [] := by
      have h2 : (risk_by_country fxRisk fxBase fxSim "Malta").map
          (fun r => r.records.isEmpty) = .ok false := by with_unfolding_all rfl
      rw [h] at h2
      simp only [Except.map, Except.ok.injEq] at h2
      intro hcon
      rw [hcon] at h2
      simp at h2
    rw [h]
    dsimp only [Except.toOption, Option.getD]
    exact C7_special_area_exclusion.2.1 fxRisk fxBase fxSim "Malta" resp h
      (resp.records.headD blankOut) (headD_mem _ hne) "Taiwan Province of" (by decide)
  · obtain ⟨resp, h⟩ : ∃ r, top_risk fxRisk fxBase 20 (1/5) none = .ok r :=
      ⟨_, by with_unfolding_all rfl⟩
    have hne : resp.records ≠ [] := by
      have h2 : (top_risk fxRisk fxBase 20 (1/5) none).map
          (fun r => r.records.isEmpty) = .ok false := by with_unfolding_all rfl
      rw [h] at h2
      simp only [Except.map, Except.ok.injEq] at h2
      intro hcon
      rw [hcon] at h2
      simp at h2
    rw [h]
    dsimp only [Except.toOption, Option.getD]
    exact C7_special_area_exclusion.2.2.1 fxRisk fxBase 20 (1/5) none resp h
      (resp.records.headD blankOut) (headD_mem _ hne) "(Kingdom of the)" (by decide)
  · obtain ⟨resp, h⟩ : ∃ r, top_risk_cached fxStore 20 (35/100) none = .ok r :=
      ⟨_, by with_unfolding_all rfl⟩
    have hne : resp.records ≠ [] := by
      have h2 : (top_risk_cached fxStore 20 (35/100) none).map
          (fun r => r.records.isEmpty) = .ok false := by with_unfolding_all rfl
      rw [h] at h2
      simp only [Except.map, Except.ok.injEq] at h2
      intro hcon
      rw [hcon] at h2
      simp at h2
    rw [h]
    dsimp only [Except.toOption, Option.getD]
    exact C7_special_area_exclusion.2.2.2 fxStore 20 (35/100) none resp h
      (resp.records.headD blankOut) (headD_mem _ hne) ", mainland" (by decide)

theorem round_floats_commodity (r : OutRow) : (_round_floats r).commodity = r.commodity := rfl

theorem round_floats_band (r : OutRow) : (_round_floats r).risk_band = r.risk_band := rfl

theorem simLeftJoin_total {sim : List SimRow} {risk_c : List RiskRow} {s : SimRow}
    (hs : s ∈ sim) :
    ∃ o ∈ simLeftJoin sim risk_c, o.country = s.country ∧ o.commodity = s.commodity ∧
      ((risk_c.filter (fun r => r.country == s.country && r.commodity == s.commodity)) = [] →
        o.risk_score = none ∧ o.risk_band = none) := by
  unfold simLeftJoin
  cases hm : risk_c.filter (fun r => r.country == s.country && r.commodity == s.commodity) with
  | nil =>
      refine ⟨simMergeRow s none, ?_, rfl, rfl, fun _ => ⟨rfl, rfl⟩⟩
      apply List.mem_flatMap.mpr
      refine ⟨s, hs, ?_⟩
      rw [hm]
      exact List.mem_singleton.mpr rfl
  | cons r rs =>
      refine ⟨simMergeRow s (some r), ?_, rfl, rfl,
        fun hcon => absurd hcon (by simp)⟩
      apply List.mem_flatMap.mpr
      refine ⟨s, hs, ?_⟩
      rw [hm]
      exact List.mem_map.mpr ⟨r, List.mem_cons_self _ _, rfl⟩

/-- C4 (amended): in `simulate_risk`, shocked rows are left-joined with
the Risk Table on (country, commodity): every shocked row appears in
the output records, with its risk fields left undefined when the Risk
Table has no matching entry.  In `top_risk`, however, the Risk Table is
inner-joined with the base rows before the simulated columns are
attached, so every ranked record carries the key of a Risk Table row —
a shocked row whose (country, commodity) is absent from the Risk Table
is dropped from the ranked output rather than kept with undefined risk
fields. -/
theorem C4_merge_behaviour :
    (∀ risk base country shock_pct resp,
      simulate_risk risk base country shock_pct = .ok resp →
      ∀ srow ∈ (latestBasePoolFor base country.trim).map (shockRecord shock_pct),
        ∃ rec ∈ resp.records, rec.country = srow.country ∧
          rec.commodity = srow.commodity ∧
          ((riskPoolFor risk country.trim).filter (fun r =>
            r.country == srow.country && r.commodity == srow.commodity) = [] →
            rec.risk_score = none ∧ rec.risk_band = none)) ∧
    (∀ risk base n shock_pct commodity resp,
      top_risk risk base n shock_pct commodity = .ok resp →
      ∀ rec ∈ resp.records, ∃ r ∈ topRiskRiskPool risk commodity,
        rec.country = r.country ∧ rec.commodity = r.commodity) := by
  constructor
  · intro risk base country s resp h srow hsrow
    rw [simulate_risk_ok h]
    dsimp only
    obtain ⟨o, ho, hoc, hom, hrs⟩ :=
      @simLeftJoin_total _ (riskPoolFor risk country.trim) _ hsrow
    refine ⟨_round_floats o, List.mem_map_of_mem _ (List.mem_mergeSort.mpr ho),
      ?_, ?_, ?_⟩
    · rw [round_floats_country, hoc]
    · rw [round_floats_commodity, hom]
    · intro hempty
      obtain ⟨h1, h2⟩ := hrs hempty
      constructor
      · show o.risk_score.map pythonRound6 = none
        rw [h1]
        rfl
      · rw [round_floats_band]
        exact h2
  · intro risk base n shock_pct commodity resp h rec hrec
    rw [top_risk_ok h] at hrec
    dsimp only at hrec
    obtain ⟨o, ho, rfl⟩ := List.mem_map.mp hrec
    have ho2 := List.mem_of_mem_take ho
    have ho3 := List.mem_mergeSort.mp ho2
    unfold topRiskMerged at ho3
    obtain ⟨p, hp, hco, hcm⟩ := mem_attachSim ho3
    exact ⟨p.1, mem_riskBaseInner hp,
      by rw [round_floats_country, hco], by rw [round_floats_commodity, hcm]⟩

/-- C4, counterexample to the claim as stated: with a Risk Table
holding only (Malta, Wheat), the (Malta, Rice) shocked row survives
every filter of `top_risk` (it is in the simulated pool), yet the
ranked output contains no Rice record — the row is dropped by the
inner join, not kept with undefined risk fields. -/
theorem C4_counterexample :
    ((topRiskBasePool fxBase none).map (shockRecord (1/5))).map SimRow.commodity =
      ["Wheat", "Rice"] ∧
    (top_risk fxRisk fxBase 20 (1/5) none).map
      (fun resp => resp.records.map OutRow.commodity) = .ok ["Wheat"] := by
  constructor <;> with_unfolding_all rfl

set_option maxRecDepth 8000 in
theorem C4_witness :
    (∃ rec ∈ (((simulate_risk fxRisk fxBase "Malta" (1/5)).toOption.getD
        { country := "", shock_pct := 0, n_records := 0, records := [],
          note := "" }).records),
      rec.country = (shockRecord (1/5) riceRow).country ∧
      rec.commodity = (shockRecord (1/5) riceRow).commodity ∧
      ((riskPoolFor fxRisk "Malta".trim).filter (fun r =>
        r.country == (shockRecord (1/5) riceRow).country &&
        r.commodity == (shockRecord (1/5) riceRow).commodity) = [] →
        rec.risk_score = none ∧ rec.risk_band = none)) ∧
    (∃ r ∈ topRiskRiskPool fxRisk none,
      ((((top_risk fxRisk fxBase 20 (1/5) none).toOption.getD
        { shock_pct := 0, commodity := none, n_records := 0, records := [],
          note := "" }).records.headD blankOut).country = r.country ∧
       (((top_risk fxRisk fxBase 20 (1/5) none).toOption.getD
        { shock_pct := 0, commodity := none, n_records := 0, records := [],
          note := "" }).records.headD blankOut).commodity = r.commodity)) := by
  constructor
  · obtain ⟨resp, h⟩ : ∃ r, simulate_risk fxRisk fxBase "Malta" (1/5) = .ok r :=
      ⟨_, by with_unfolding_all rfl⟩
    rw [h]
    dsimp only [Except.toOption, Option.getD]
    exact C4_merge_behaviour.1 fxRisk fxBase "Malta" (1/5) resp h
      (shockRecord (1/5) riceRow) (of_decide_eq_true (by with_unfolding_all rfl))
  · obtain ⟨resp, h⟩ : ∃ r, top_risk fxRisk fxBase 20 (1/5) none = .ok r :=
      ⟨_, by with_unfolding_all rfl⟩
    have hne : resp.records ≠ [] := by
      have h2 : (top_risk fxRisk fxBase 20 (1/5) none).map
          (fun r => r.records.isEmpty) = .ok false := by with_unfolding_all rfl
      rw [h] at h2
      simp only [Except.map, Except.ok.injEq] at h2
      intro hcon
      rw [hcon] at h2
      simp at h2
    rw [h]
    dsimp only [Except.toOption, Option.getD]
    exact C4_merge_behaviour.2 fxRisk fxBase 20 (1/5) none resp h
      (resp.records.headD blankOut) (headD_mem _ hne)

/-- C8 (amended): every serving operation except `list_countries`
reports its count field equal to the length of the record sequence
actually returned after all filtering and truncation; `list_countries`
returns at most 200 names, but its reported count `n` is the
post-filter, pre-truncation count, which is an upper bound of — and
when more than 200 distinct names survive, strictly exceeds — the
number of names returned. -/
theorem C8_reported_counts :
    (∀ risk base sim country resp,
      risk_by_country risk base sim country = .ok resp →
      resp.n_records = resp.records.length) ∧
    (∀ risk base country shock_pct resp,
      simulate_risk risk base country shock_pct = .ok resp →
      resp.n_records = resp.records.length) ∧
    (∀ risk base n shock_pct commodity resp,
      top_risk risk base n shock_pct commodity = .ok resp →
      resp.n_records = resp.records.length) ∧
    (∀ store n shock_pct commodity resp,
      top_risk_cached store n shock_pct commodity = .ok resp →
      resp.n_records = resp.records.length) ∧
    (∀ risk, (list_commodities risk).n = (list_commodities risk).commodities.length) ∧
    (∀ available : List ℤ,
      (list_cached_shocks available).n = (list_cached_shocks available).shocks.length) ∧
    (∀ (risk : List RiskRow) (q : Option String),
      (list_countries risk q).countries.length ≤ 200 ∧
      (list_countries risk q).countries.length ≤ (list_countries risk q).n) := by
  refine ⟨?_, ?_, ?_, ?_, fun _ => rfl, fun _ => rfl, ?_⟩
  · intro risk base sim country resp h
    rw [risk_by_country_ok h]
    dsimp only
    rw [List.length_map]
  · intro risk base country shock_pct resp h
    rw [simulate_risk_ok h]
  · intro risk base n shock_pct commodity resp h
    rw [top_risk_ok h]
  · intro store n shock_pct commodity resp h
    obtain ⟨k, hk⟩ := top_risk_cached_resolves h
    rw [top_risk_cached_ok h hk]
  · intro risk q
    unfold list_countries
    dsimp only
    constructor
    · simp [List.length_take]
    · exact (List.take_sublist _ _).length_le


theorem containsSub_eq_false_of_lt : ∀ (p l : List Char), l.length < p.length →
    containsSub p l = false
  | p, [], h => by
      cases p with
      | nil => simp at h
      | cons c cs => rfl
  | p, c :: cs, h => by
      show (p.isPrefixOf (c :: cs) || containsSub p cs) = false
      rw [Bool.or_eq_false_iff]
      constructor
      · by_contra hcon
        rw [Bool.not_eq_false, List.isPrefixOf_iff_prefix] at hcon
        exact absurd hcon.length_le (by omega)
      · exact containsSub_eq_false_of_lt p cs (by simpa using Nat.lt_of_succ_lt h)

theorem toLower_toList (s : String) : s.toLower.toList = s.data.map Char.toLower := by
  rw [show s.toLower = String.map Char.toLower s from rfl, String.map_eq]
  rfl

theorem mask_false_of_short (c : String) (h : c.data.length < 10) :
    _special_area_mask c = false := by
  unfold _special_area_mask strContainsCI
  have hlen : (c.toLower.toList).length = c.data.length := by
    rw [toLower_toList, List.length_map]
  rw [Bool.or_eq_false_iff, Bool.or_eq_false_iff]
  refine ⟨⟨?_, ?_⟩, ?_⟩ <;>
    refine containsSub_eq_false_of_lt _ _ ?_ <;>
    rw [hlen, toLower_toList, List.length_map] <;>
    simp only [List.length] <;>
    omega

theorem dedupFirst_go (l : List String) : ∀ acc : List String, (acc ++ l).Nodup →
    l.foldl (fun acc x => if acc.contains x then acc else acc ++ [x]) acc = acc ++ l := by
  induction l with
  | nil =>
      intro acc _
      simp
  | cons x xs ih =>
      intro acc hd
      have hx : acc.contains x = false := by
        have hmem : x ∉ acc := fun hmem =>
          (List.disjoint_of_nodup_append hd) hmem (List.mem_cons_self _ _)
        simpa using hmem
      have hstep : (if acc.contains x = true then acc else acc ++ [x]) = acc ++ [x] := by
        rw [hx]
        simp
      rw [List.foldl_cons]
      rw [hstep, ih (acc ++ [x]) (by rw [List.append_assoc]; exact hd), List.append_assoc]
      rfl

theorem dedupFirst_eq_self {l : List String} (h : l.Nodup) : dedupFirst l = l := by
  unfold dedupFirst
  simpa using dedupFirst_go l [] (by simpa using h)

set_option maxRecDepth 40000 in
set_option maxHeartbeats 3200000 in
/-- C8, counterexample to the claim as stated: with a risk table of 201
distinct plain country names, `list_countries` returns 200 names but
reports `n = 201` — a pre-truncation count, not the length of the
returned name sequence. -/
theorem C8_counterexample :
    (list_countries ce8_risk none).n = 201 ∧
    (list_countries ce8_risk none).countries.length = 200 := by
  have hmap : ce8_risk.map RiskRow.country = ce8Names := by with_unfolding_all rfl
  have hnodup : ce8Names.Nodup := by decide
  have hshort : ∀ c ∈ ce8Names, c.data.length < 10 := by decide
  have hfilter : _filter_special_areas id
      (dedupFirst (ce8_risk.map RiskRow.country)) = ce8Names := by
    rw [hmap, dedupFirst_eq_self hnodup]
    apply List.filter_eq_self.mpr
    intro c hc
    simp [mask_false_of_short c (hshort c hc)]
  unfold list_countries
  dsimp only
  rw [hfilter]
  constructor
  · show (sortedStr ce8Names).length = 201
    unfold sortedStr
    rw [(List.mergeSort_perm ce8Names _).length_eq]
    rfl
  · show ((sortedStr ce8Names).take 200).length = 200
    rw [List.length_take]
    unfold sortedStr
    rw [(List.mergeSort_perm ce8Names _).length_eq]
    rfl

set_option maxRecDepth 8000 in
theorem C8_witness :
    ((risk_by_country fxRisk fxBase fxSim "Malta").toOption.getD
        { country := "", n_records := 0, records := [], note := "" }).n_records =
      ((risk_by_country fxRisk fxBase fxSim "Malta").toOption.getD
        { country := "", n_records := 0, records := [], note := "" }).records.length ∧
    ((simulate_risk fxRisk fxBase "Malta" (1/5)).toOption.getD
        { country := "", shock_pct := 0, n_records := 0, records := [],
          note := "" }).n_records =
      ((simulate_risk fxRisk fxBase "Malta" (1/5)).toOption.getD
        { country := "", shock_pct := 0, n_records := 0, records := [],
          note := "" }).records.length ∧
    ((top_risk fxRisk fxBase 20 (1/5) none).toOption.getD
        { shock_pct := 0, commodity := none, n_records := 0, records := [],
          note := "" }).n_records =
      ((top_risk fxRisk fxBase 20 (1/5) none).toOption.getD
        { shock_pct := 0, commodity := none, n_records := 0, records := [],
          note := "" }).records.length ∧
    ((top_risk_cached fxStore 20 (35/100) none).toOption.getD
        { shock_pct := 0, commodity := none, n_records := 0, records := [],
          note := "" }).n_records =
      ((top_risk_cached fxStore 20 (35/100) none).toOption.getD
        { shock_pct := 0, commodity := none, n_records := 0, records := [],
          note := "" }).records.length ∧
    (list_commodities fxRisk).n = (list_commodities fxRisk).commodities.length ∧
    (list_cached_shocks [35, 20]).n = (list_cached_shocks [35, 20]).shocks.length ∧
    ((list_countries fxRisk none).countries.length ≤ 200 ∧
      (list_countries fxRisk none).countries.length ≤ (list_countries fxRisk none).n) := by
  refine ⟨?_, ?_, ?_, ?_, C8_reported_counts.2.2.2.2.1 fxRisk,
    C8_reported_counts.2.2.2.2.2.1 [35, 20],
    C8_reported_counts.2.2.2.2.2.2 fxRisk none⟩
  · obtain ⟨resp, h⟩ : ∃ r, risk_by_country fxRisk fxBase fxSim "Malta" = .ok r :=
      ⟨_, by with_unfolding_all rfl⟩
    rw [h]
    dsimp only [Except.toOption, Option.getD]
    exact C8_reported_counts.1 fxRisk fxBase fxSim "Malta" resp h
  · obtain ⟨resp, h⟩ : ∃ r, simulate_risk fxRisk fxBase "Malta" (1/5) = .ok r :=
      ⟨_, by with_unfolding_all rfl⟩
    rw [h]
    dsimp only [Except.toOption, Option.getD]
    exact C8_reported_counts.2.1 fxRisk fxBase "Malta" (1/5) resp h
  · obtain ⟨resp, h⟩ : ∃ r, top_risk fxRisk fxBase 20 (1/5) none = .ok r :=
      ⟨_, by with_unfolding_all rfl⟩
    rw [h]
    dsimp only [Except.toOption, Option.getD]
    exact C8_reported_counts.2.2.1 fxRisk fxBase 20 (1/5) none resp h
  · obtain ⟨resp, h⟩ : ∃ r, top_risk_cached fxStore 20 (35/100) none = .ok r :=
      ⟨_, by with_unfolding_all rfl⟩
    rw [h]
    dsimp only [Except.toOption, Option.getD]
    exact C8_reported_counts.2.2.2.1 fxStore 20 (35/100) none resp h

/-- C10: in `top_risk_cached` the emptiness check that produces the
NotFound outcome runs after the commodity filter but before
special-area exclusion: whenever the commodity-filtered snapshot rows
are non-empty but all of them are special-area rows, the operation
returns a success envelope with an empty records list and
`n_records = 0` rather than a NotFound outcome. -/
theorem C10_cached_empty_after_special_filter
    (store : List (ℤ × List OutRow)) (n : ℕ) (shock_pct : ℚ)
    (commodity : Option String) (k : ℤ)
    (hn : 1 ≤ n ∧ n ≤ 200) (hs : 0 ≤ shock_pct ∧ shock_pct ≤ 1)
    (hk : _shock_to_cached_file (store.map Prod.fst) shock_pct = .ok k)
    (hne : commodityFilter commodity OutRow.commodity ((store.lookup k).getD []) ≠ [])
    (hall : ∀ r ∈ commodityFilter commodity OutRow.commodity ((store.lookup k).getD []),
      _special_area_mask r.country = true) :
    ∃ resp, top_risk_cached store n shock_pct commodity = .ok resp ∧
      resp.records = [] ∧ resp.n_records = 0 := by
  have hfilter : _filter_special_areas OutRow.country
      (commodityFilter commodity OutRow.commodity ((store.lookup k).getD [])) = [] := by
    unfold _filter_special_areas
    rw [List.filter_eq_nil_iff]
    intro a ha
    simp [hall a ha]
  unfold top_risk_cached
  rw [if_neg (not_not_intro hn), if_neg (not_not_intro hs), hk]
  dsimp only
  rw [if_neg (by simpa [List.isEmpty_iff] using hne)]
  rw [hfilter]
  refine ⟨_, rfl, ?_, ?_⟩ <;> simp [rankSort]

theorem C10_witness :
    ∃ resp, top_risk_cached fxStoreSpecial 20 (35/100) none = .ok resp ∧
      resp.records = [] ∧ resp.n_records = 0 :=
  C10_cached_empty_after_special_filter fxStoreSpecial 20 (35/100) none 35
    (by decide) (of_decide_eq_true (by with_unfolding_all rfl))
    (by with_unfolding_all rfl)
    (of_decide_eq_true (by with_unfolding_all rfl))
    (of_decide_eq_true (by with_unfolding_all rfl))
